import Mathlib

/-!
Shallow embedding of the Spotify API client in `src/api/client.rs`:
the token store, the request builder, the response classifier
(`send_req` / `send_req_no_response`), cache-control parsing, the
deserialization wrapper, and the search-query serializer.

External crates (http, isahc, serde_json, form_urlencoded) are modelled
at the granularity the client code observes: header/URI byte validity,
HTTP status classification inputs, an abstract JSON parse function, and
the form-urlencoding byte rules.
-/

namespace Spot

/-- The error enum `SpotifyApiError` from `client.rs`. Transparent wrapper
variants (`ClientError`, `IoError`, ...) are collapsed to nullary tags since
the wrapped payloads play no role in the claims. -/
inductive SpotifyApiError where
  | InvalidToken
  | NoToken
  | NoContent
  | BadStatus (code : Nat)
  | ClientError
  | IoError
  | CacheError
  | ParseError
  | ConversionError
deriving DecidableEq, Repr

/-- The outcome of a successfully transported HTTP exchange, as observed by
`send_req`: numeric status, the `ETag` and `Cache-Control` header values
after `to_str().ok()` (absent header and non-ASCII header are both `none`),
and the body text that `result.text()` would produce. -/
structure HttpResponse where
  status : Nat
  etag : Option String
  cacheControl : Option String
  body : String
deriving DecidableEq, Repr

/-- Model of Rust `str::split(sep)`: splits on every occurrence of the
separator, keeping empty pieces; the empty string yields one empty piece. -/
def splitOnChar (sep : Char) : List Char → List (List Char)
  | [] => [[]]
  | c :: rest =>
    if c = sep then [] :: splitOnChar sep rest
    else
      match splitOnChar sep rest with
      | [] => [[c]]
      | h :: t => (c :: h) :: t

/-- Model of Rust `str::starts_with(pat)` on character lists; first
argument the string, second the pattern. -/
def startsWithChars : List Char → List Char → Bool
  | _, [] => true
  | [], _ :: _ => false
  | c :: cs, p :: ps => c == p && startsWithChars cs ps

/-- Model of Rust `str::trim`: whitespace removed from both ends. (Header
values observed through `to_str` are ASCII, where the whitespace notions of
the two languages agree.) -/
def trimChars (cs : List Char) : List Char :=
  ((cs.dropWhile Char.isWhitespace).reverse.dropWhile Char.isWhitespace).reverse

/-- Model of Rust `u64::from_str`: an optional leading plus sign, then one
or more ASCII digits, no other characters, and the value must fit in 64
bits; otherwise it errs (here: `none`). -/
def parseU64 (s : List Char) : Option Nat :=
  let t := if startsWithChars s ['+'] then s.drop 1 else s
  if t.isEmpty then none
  else if t.all Char.isDigit then
    let n := t.foldl (fun acc c => acc * 10 + (c.toNat - 48)) 0
    if n < 2 ^ 64 then some n else none
  else none

/-- `SpotifyClient::parse_cache_control`: split the header on commas, find
the first piece whose trimmed form starts with "max-age=", take the text
between the first and second equals sign of the untrimmed piece, and parse
it as a u64. -/
def parse_cache_control (cache_control : String) : Option Nat :=
  (((splitOnChar ',' cache_control.data).find? fun s =>
      startsWithChars (trimChars s) "max-age=".data).bind
    fun s => (splitOnChar '=' s).get? 1).bind parseU64

/-- `SpotifyResponseKind`: `Ok` carries the raw body text, `NotModified`
carries nothing. The phantom response-type parameter is dropped. -/
inductive SpotifyResponseKind where
  | Ok (content : String)
  | NotModified
deriving DecidableEq, Repr

/-- `SpotifyResponse`: classification tag plus cache metadata. -/
structure SpotifyResponse where
  kind : SpotifyResponseKind
  max_age : Nat
  etag : Option String
deriving DecidableEq, Repr

/-- `SpotifyResponse::deserialize`, with serde_json's `from_str` abstracted
as a parameter: on an `Ok` envelope the parse result's error is discarded
(`.ok()`), on `NotModified` the result is `none`. -/
def SpotifyResponse.deserialize {T : Type} (from_str : String → Except SpotifyApiError T)
    (r : SpotifyResponse) : Option T :=
  match r.kind with
  | .Ok content => (from_str content).toOption
  | .NotModified => none

/-- Token field of `SpotifyClient::new()`: the store starts empty. -/
def new_client_token : Option String := none

/-- `SpotifyClient::has_token`. -/
def has_token (token : Option String) : Bool := token.isSome

/-- `SpotifyClient::update_token`: unconditional replacement (sequential
model: the mutex lock succeeds). -/
def update_token (_token : Option String) (new_token : String) : Option String :=
  some new_token

/-- `SpotifyClient::clear_token`. -/
def clear_token (_token : Option String) : Option String := none

/-- The result of `SpotifyClient::send_req` after the transport delivered a
response: the returned value, the token store afterwards, and whether the
body was read (`result.text()` invoked). -/
structure SendReqResult where
  result : Except SpotifyApiError SpotifyResponse
  token : Option String
  bodyRead : Bool

/-- `SpotifyClient::send_req`, from the point where `send_async` has
succeeded with response `r`. Headers are extracted first; then the status
is matched in source order: success (2xx), 401, 304, other. -/
def send_req (token : Option String) (r : HttpResponse) : SendReqResult :=
  if 200 ≤ r.status ∧ r.status ≤ 299 then
    { result := .ok { kind := .Ok r.body,
                      max_age := (r.cacheControl.bind parse_cache_control).getD 10,
                      etag := r.etag }
      token := token
      bodyRead := true }
  else if r.status = 401 then
    { result := .error .InvalidToken, token := none, bodyRead := false }
  else if r.status = 304 then
    { result := .ok { kind := .NotModified,
                      max_age := (r.cacheControl.bind parse_cache_control).getD 10,
                      etag := r.etag }
      token := token
      bodyRead := false }
  else
    { result := .error (.BadStatus r.status), token := token, bodyRead := false }

/-- `SpotifyClient::send_req_no_response`, from the point where the
transport has delivered response `r`: the returned value and the token
store afterwards. The body is never read on any path. -/
def send_req_no_response (token : Option String) (r : HttpResponse) :
    Except SpotifyApiError Unit × Option String :=
  if r.status = 401 then (.error .InvalidToken, none)
  else if r.status = 304 then (.ok (), token)
  else if 200 ≤ r.status ∧ r.status ≤ 299 then (.ok (), token)
  else (.error (.BadStatus r.status), token)

/-- Model of the http crate's header-value validity (`HeaderValue` from a
Rust string): every byte must be tab or at least 32 and not DEL. Characters
above 127 encode to bytes at least 128, which are accepted, so a per-char
check suffices. -/
def validHeaderValueChar (c : Char) : Bool :=
  c == '\t' || (decide (32 ≤ c.toNat) && decide (c.toNat ≠ 127))

/-- Model of the http crate's URI character table for the path-and-query
part: ASCII alphanumerics and a fixed set of punctuation; space, controls,
and non-ASCII are invalid. -/
def validUriChar (c : Char) : Bool :=
  c.isAlphanum || c == Char.ofNat 39 || "!$%&()*+,-./:;=?@[]_~".data.contains c

/-- Builder error state, as kept by `http::request::Builder`: once an
operation fails the builder stores the error and later operations no-op;
`body()` then returns it. -/
inductive BuildError where
  | invalidHeaderValue
deriving DecidableEq, Repr

/-- The `http::request::Builder` held by `SpotifyRequest`: method, URI,
accumulated headers, and the stored error if any operation failed. -/
structure Builder where
  method : Option String
  uri : Option String
  headers : List (String × String)
  err : Option BuildError
deriving DecidableEq, Repr

/-- `Builder::new()`. -/
def Builder.new : Builder :=
  { method := none, uri := none, headers := [], err := none }

/-- `Builder::header`: no-op when an error is already stored; records the
error when the value is invalid; otherwise appends the header. (Header
names used by the client are string literals and always valid.) -/
def Builder.header (b : Builder) (k v : String) : Builder :=
  if b.err.isSome then b
  else if v.data.all validHeaderValueChar then
    { b with headers := b.headers ++ [(k, v)] }
  else
    { b with err := some .invalidHeaderValue }

/-- `Builder::body` as invoked by `send`/`send_no_response` through
`.unwrap()`: `none` models the panic taken when the builder stored an
error. -/
def Builder.attachBody (b : Builder) : Option Builder :=
  if b.err.isSome then none else some b

/-- The fixed upstream host `SPOTIFY_HOST`. -/
def SPOTIFY_HOST : String := "api.spotify.com"

/-- `SpotifyRequest::method`. -/
def SpotifyRequest.method (b : Builder) (m : String) : Builder :=
  { b with method := some m }

/-- `SpotifyRequest::uri`: glues path and optional query with a question
mark, builds an https URI against the fixed host, and `.unwrap()`s the
result — `none` models the panic taken when the path-and-query contains a
character the URI parser rejects. -/
def SpotifyRequest.uri (b : Builder) (path : String) (query : Option String) : Option Builder :=
  let path_and_query :=
    match query with
    | none => path
    | some q => path ++ "?" ++ q
  if path_and_query.data.all validUriChar then
    some { b with uri := some ("https://" ++ SPOTIFY_HOST ++ path_and_query) }
  else
    none

/-- `SpotifyRequest::authenticated`: fails with `NoToken` when the store is
empty, otherwise adds the bearer header. -/
def authenticated (token : Option String) (b : Builder) : Except SpotifyApiError Builder :=
  match token with
  | none => .error .NoToken
  | some t => .ok (b.header "Authorization" ("Bearer " ++ t))

/-- `SpotifyRequest::etag`: adds `If-None-Match` when a previous ETag is
supplied. -/
def SpotifyRequest.etag (b : Builder) (etag : Option String) : Builder :=
  match etag with
  | none => b
  | some e => b.header "If-None-Match" e

/-- Outcome of `SpotifyRequest::send`: `result = none` models a panic at
the `.unwrap()` on body attachment; `networkCalled` records whether the
request reached the transport. -/
structure SendOutcome where
  result : Option (Except SpotifyApiError SpotifyResponse)
  networkCalled : Bool
  token : Option String
  bodyRead : Bool

/-- `SpotifyRequest::send`: authenticate, attach the body via `.unwrap()`,
then hand the request to `send_req`; the transport would answer `r`. -/
def send (token : Option String) (b : Builder) (r : HttpResponse) : SendOutcome :=
  match authenticated token b with
  | .error e =>
    { result := some (.error e), networkCalled := false, token := token, bodyRead := false }
  | .ok b1 =>
    match b1.attachBody with
    | none => { result := none, networkCalled := false, token := token, bodyRead := false }
    | some _req =>
      let out := send_req token r
      { result := some out.result, networkCalled := true, token := out.token
        bodyRead := out.bodyRead }

/-- Outcome of `SpotifyRequest::send_no_response`, analogous to
`SendOutcome`. -/
structure SendNoRespOutcome where
  result : Option (Except SpotifyApiError Unit)
  networkCalled : Bool
  token : Option String

/-- `SpotifyRequest::send_no_response`: authenticate, attach the body via
`.unwrap()`, then hand the request to `send_req_no_response`. -/
def send_no_response (token : Option String) (b : Builder) (r : HttpResponse) : SendNoRespOutcome :=
  match authenticated token b with
  | .error e => { result := some (.error e), networkCalled := false, token := token }
  | .ok b1 =>
    match b1.attachBody with
    | none => { result := none, networkCalled := false, token := token }
    | some _req =>
      let out := send_req_no_response token r
      { result := some out.1, networkCalled := true, token := out.2 }

/-- `SpotifyClient::get_artist`: interpolates the raw id into the path. -/
def get_artist (id : String) : Option Builder :=
  SpotifyRequest.uri (SpotifyRequest.method Builder.new "GET") ("/v1/artists/" ++ id) none

/-- UTF-8 encoding of one scalar value, byte list as natural numbers;
models how a Rust `String` stores its characters. -/
def utf8EncodeChar (c : Char) : List Nat :=
  let n := c.toNat
  if n < 128 then [n]
  else if n < 2048 then [192 + n / 64, 128 + n % 64]
  else if n < 65536 then [224 + n / 4096, 128 + n / 64 % 64, 128 + n % 64]
  else [240 + n / 262144, 128 + n / 4096 % 64, 128 + n / 64 % 64, 128 + n % 64]

/-- The UTF-8 byte sequence of a string. -/
def utf8Bytes (s : String) : List Nat :=
  (s.data.map utf8EncodeChar).flatten

/-- Uppercase hexadecimal digit for a value below 16. -/
def hexUpper (n : Nat) : Char :=
  if n < 10 then Char.ofNat (48 + n) else Char.ofNat (55 + n)

/-- Bytes the form_urlencoded crate leaves unencoded in `append_pair`:
ASCII alphanumerics and asterisk, hyphen, period, underscore. -/
def isFormUnencodedByte (b : Nat) : Bool :=
  (decide (48 ≤ b) && decide (b ≤ 57)) ||
  (decide (65 ≤ b) && decide (b ≤ 90)) ||
  (decide (97 ≤ b) && decide (b ≤ 122)) ||
  b == 42 || b == 45 || b == 46 || b == 95

/-- One byte under application/x-www-form-urlencoded rules: space becomes
plus, unencoded bytes pass through, everything else is percent-encoded in
uppercase hex. -/
def formEncodeByte (b : Nat) : List Char :=
  if b == 32 then [Char.ofNat 43]
  else if isFormUnencodedByte b then [Char.ofNat b]
  else [Char.ofNat 37, hexUpper (b / 16), hexUpper (b % 16)]

/-- Form-urlencoding of a string, over its UTF-8 bytes. -/
def formEncode (s : String) : String :=
  String.mk ((utf8Bytes s).map formEncodeByte).flatten

/-- The `SearchType` enum used by the search endpoint. -/
inductive SearchType where
  | Album
  | Artist
deriving DecidableEq, Repr

/-- The lowercase wire name of a `SearchType`. -/
def SearchType.into_string : SearchType → String
  | .Album => "album"
  | .Artist => "artist"

/-- The `SearchQuery` value built by `SpotifyClient::search`. -/
structure SearchQuery where
  query : String
  types : List SearchType
  limit : Nat
  offset : Nat

/-- Modelled from the spec: `SearchQuery::into_query_string` lives in the
`api_models` module, which is not under `src/` — only its callers and its
unit tests are. Per the spec, parameters are emitted in the fixed key order
type, q, offset, limit, market; the type list is comma-joined; literal
question marks in the query are stripped and the rest is form-encoded
(space to plus, UTF-8 bytes percent-encoded); market is the literal
`from_token`. -/
def SearchQuery.into_query_string (sq : SearchQuery) : String :=
  "type=" ++ String.intercalate "," (sq.types.map SearchType.into_string) ++
  "&q=" ++ formEncode (String.mk (sq.query.data.filter fun c => c != '?')) ++
  "&offset=" ++ toString sq.offset ++
  "&limit=" ++ toString sq.limit ++
  "&market=from_token"

/-- Claim C1: on a client whose token store is empty, `authenticated`,
`send` and `send_no_response` all fail with `NoToken`, for every builder
state and every response the transport would have given, and the transport
is never invoked. -/
theorem C1_no_token_fails_fast (b : Builder) (r : HttpResponse) :
    authenticated none b = .error SpotifyApiError.NoToken ∧
    (send none b r).result = some (.error SpotifyApiError.NoToken) ∧
    (send none b r).networkCalled = false ∧
    (send_no_response none b r).result = some (.error SpotifyApiError.NoToken) ∧
    (send_no_response none b r).networkCalled = false :=
  ⟨rfl, rfl, rfl, rfl, rfl⟩

/-- Claim C2: for every response with status in [200, 299], `send_req`
returns an `Ok` envelope carrying the full body text, `max_age` equal to
the parsed `Cache-Control` max-age with default 10, and `etag` equal to the
`ETag` header value; the token store is untouched and the body is read. -/
theorem C2_success_envelope (token : Option String) (r : HttpResponse)
    (h1 : 200 ≤ r.status) (h2 : r.status ≤ 299) :
    send_req token r =
      { result := .ok { kind := .Ok r.body,
                        max_age := (r.cacheControl.bind parse_cache_control).getD 10,
                        etag := r.etag }
        token := token
        bodyRead := true } := by
  unfold send_req
  rw [if_pos ⟨h1, h2⟩]

/-- Witness for C2 at a concrete 200 response. -/
theorem C2_success_envelope_witness :
    send_req (some "tok")
        { status := 200, etag := some "abc", cacheControl := some "public, max-age=120",
          body := "BODY" } =
      { result := .ok { kind := .Ok "BODY", max_age := 120, etag := some "abc" }
        token := some "tok"
        bodyRead := true } :=
  C2_success_envelope (some "tok") _ (by decide) (by decide)

/-- Claim C3: for every response with status 401, `send_req` and
`send_req_no_response` clear the token store (so `has_token` is false
afterwards) and return `InvalidToken`; the body is not read. -/
theorem C3_unauthorized_clears_token (token : Option String) (r : HttpResponse)
    (h : r.status = 401) :
    send_req token r = { result := .error .InvalidToken, token := none, bodyRead := false } ∧
    has_token (send_req token r).token = false ∧
    send_req_no_response token r = (.error .InvalidToken, none) ∧
    has_token (send_req_no_response token r).2 = false := by
  unfold send_req send_req_no_response
  rw [h]
  norm_num [has_token]

/-- Witness for C3 at a concrete 401 response. -/
theorem C3_unauthorized_clears_token_witness :
    send_req (some "tok") { status := 401, etag := none, cacheControl := none, body := "x" } =
      { result := .error .InvalidToken, token := none, bodyRead := false } ∧
    has_token (send_req (some "tok")
      { status := 401, etag := none, cacheControl := none, body := "x" }).token = false ∧
    send_req_no_response (some "tok")
        { status := 401, etag := none, cacheControl := none, body := "x" } =
      (.error .InvalidToken, none) ∧
    has_token (send_req_no_response (some "tok")
      { status := 401, etag := none, cacheControl := none, body := "x" }).2 = false :=
  C3_unauthorized_clears_token (some "tok") _ rfl

/-- Claim C4: for every response with status 304, `send_req` returns a
`NotModified` envelope (which carries no body text), with `max_age` and
`etag` extracted exactly as in the 2xx path (default 10), the token store
untouched, and the body not read. -/
theorem C4_not_modified_envelope (token : Option String) (r : HttpResponse)
    (h : r.status = 304) :
    send_req token r =
      { result := .ok { kind := .NotModified,
                        max_age := (r.cacheControl.bind parse_cache_control).getD 10,
                        etag := r.etag }
        token := token
        bodyRead := false } := by
  unfold send_req
  rw [h]
  norm_num

/-- Witness for C4 at a concrete 304 response. -/
theorem C4_not_modified_envelope_witness :
    send_req (some "tok")
        { status := 304, etag := some "xyz", cacheControl := some "max-age=99",
          body := "IGNORED" } =
      { result := .ok { kind := .NotModified, max_age := 99, etag := some "xyz" }
        token := some "tok"
        bodyRead := false } :=
  C4_not_modified_envelope (some "tok") _ rfl

/-- Claim C5: for every response whose status is outside [200, 299] and is
neither 304 nor 401, `send_req` and `send_req_no_response` return
`BadStatus` carrying exactly that status code, and the token store is
untouched. -/
theorem C5_bad_status (token : Option String) (r : HttpResponse)
    (hs : ¬(200 ≤ r.status ∧ r.status ≤ 299)) (h304 : r.status ≠ 304) (h401 : r.status ≠ 401) :
    send_req token r =
      { result := .error (.BadStatus r.status), token := token, bodyRead := false } ∧
    send_req_no_response token r = (.error (.BadStatus r.status), token) := by
  refine ⟨?_, ?_⟩
  · unfold send_req
    rw [if_neg hs, if_neg h401, if_neg h304]
  · unfold send_req_no_response
    rw [if_neg h401, if_neg h304, if_neg hs]

/-- Witness for C5 at a concrete 500 response. -/
theorem C5_bad_status_witness :
    send_req (some "tok") { status := 500, etag := none, cacheControl := none, body := "" } =
      { result := .error (.BadStatus 500), token := some "tok", bodyRead := false } ∧
    send_req_no_response (some "tok")
        { status := 500, etag := none, cacheControl := none, body := "" } =
      (.error (.BadStatus 500), some "tok") :=
  C5_bad_status (some "tok") _ (by decide) (by decide) (by decide)

/-- Claim C6: `parse_cache_control` returns the u64 value of the first
comma-separated directive whose trimmed form starts with "max-age=" (the
value being the text between the first and second equals sign of that
directive), and returns `none` — so `max_age` defaults to 10 — when no such
directive exists or the value does not parse as a u64; checked on concrete
headers including an absent directive, a malformed value, a second-position
directive, and the u64 overflow boundary. -/
theorem C6_parse_cache_control :
    (∀ cc, parse_cache_control cc =
      (((splitOnChar ',' cc.data).find? fun d =>
          startsWithChars (trimChars d) "max-age=".data).bind
        fun d => (splitOnChar '=' d).get? 1).bind parseU64) ∧
    parse_cache_control "max-age=300" = some 300 ∧
    parse_cache_control "private, max-age=60" = some 60 ∧
    parse_cache_control "no-store" = none ∧
    parse_cache_control "max-age=abc" = none ∧
    parse_cache_control "" = none ∧
    parse_cache_control "max-age=18446744073709551616" = none ∧
    parse_cache_control "max-age=18446744073709551615" = some 18446744073709551615 :=
  ⟨fun _ => rfl, by decide, by decide, by decide, by decide, by decide, by decide, by decide⟩

/-- Claim C7: the search-query serializer emits the fixed key order type,
q, offset, limit, market; the three concrete cases from the repository's
unit tests hold, and the UTF-8 bytes of the Cyrillic query are exactly the
ones percent-encoded in its q parameter. -/
theorem C7_search_query_serialization :
    SearchQuery.into_query_string
        { query := "test", types := [.Album, .Artist], limit := 5, offset := 0 } =
      "type=album,artist&q=test&offset=0&limit=5&market=from_token" ∧
    SearchQuery.into_query_string
        { query := "test??? wow", types := [.Album], limit := 5, offset := 0 } =
      "type=album&q=test+wow&offset=0&limit=5&market=from_token" ∧
    SearchQuery.into_query_string
        { query := "кириллица", types := [.Album], limit := 5, offset := 0 } =
      "type=album&q=%D0%BA%D0%B8%D1%80%D0%B8%D0%BB%D0%BB%D0%B8%D1%86%D0%B0&offset=0&limit=5&market=from_token" ∧
    utf8Bytes "кириллица" =
      [208, 186, 208, 184, 209, 128, 208, 184, 208, 187, 208, 187, 208, 184, 209, 134, 208, 176] :=
  ⟨by decide, by decide, by decide, by decide⟩

/-- Claim C8: `deserialize` yields the parsed value when the envelope kind
is `Ok` and the stored text parses, and yields `none` — an absent value,
not an error — when the text fails to parse or the envelope is
`NotModified`; for every parse function standing in for serde_json. -/
theorem C8_deserialize_soft_fail {T : Type} (from_str : String → Except SpotifyApiError T)
    (r : SpotifyResponse) :
    (∀ content v, r.kind = .Ok content → from_str content = .ok v →
      r.deserialize from_str = some v) ∧
    (∀ content e, r.kind = .Ok content → from_str content = .error e →
      r.deserialize from_str = none) ∧
    (r.kind = .NotModified → r.deserialize from_str = none) := by
  refine ⟨?_, ?_, ?_⟩ <;> intro h
  all_goals simp_all [SpotifyResponse.deserialize, Except.toOption]

/-- Witness for C8: a concrete parse function on `Nat`, exercised on a
parsable `Ok` envelope, a malformed `Ok` envelope, and `NotModified`. -/
theorem C8_deserialize_soft_fail_witness :
    SpotifyResponse.deserialize
        (fun s => if s = "0" then Except.ok 0 else Except.error SpotifyApiError.ParseError)
        { kind := .Ok "0", max_age := 10, etag := none } = some 0 ∧
    SpotifyResponse.deserialize
        (fun s => if s = "0" then Except.ok 0 else Except.error SpotifyApiError.ParseError)
        { kind := .Ok "nope", max_age := 10, etag := none } = none ∧
    SpotifyResponse.deserialize
        (fun s => if s = "0" then Except.ok 0 else Except.error SpotifyApiError.ParseError)
        { kind := .NotModified, max_age := 10, etag := none } = none :=
  ⟨(C8_deserialize_soft_fail _ _).1 "0" 0 rfl rfl,
   (C8_deserialize_soft_fail _ _).2.1 "nope" SpotifyApiError.ParseError rfl rfl,
   (C8_deserialize_soft_fail _ _).2.2 rfl⟩

/-- Claim C9: token store lifecycle — a fresh client has no token,
`update_token` replaces the value unconditionally (so `has_token` is true
afterwards), and `clear_token` removes it (so `has_token` is false
afterwards), for every prior state. -/
theorem C9_token_lifecycle (token : Option String) (new_token : String) :
    has_token new_client_token = false ∧
    update_token token new_token = some new_token ∧
    has_token (update_token token new_token) = true ∧
    clear_token token = none ∧
    has_token (clear_token token) = false :=
  ⟨rfl, rfl, rfl, rfl, rfl⟩

/-- Claim C10: the request-building interface is not total — a resource id
containing a space makes `uri` panic at its `.unwrap()` (modelled as
`none`), and a token whose bearer header is an invalid header value makes
`send` and `send_no_response` panic at the `.unwrap()` on body attachment,
before any network call. -/
theorem C10_requests_can_panic :
    get_artist "a b" = none ∧
    SpotifyRequest.uri Builder.new "/v1/artists/a b" none = none ∧
    (send (some "bad\ntoken") Builder.new
      { status := 200, etag := none, cacheControl := none, body := "" }).result = none ∧
    (send (some "bad\ntoken") Builder.new
      { status := 200, etag := none, cacheControl := none, body := "" }).networkCalled = false ∧
    (send_no_response (some "bad\ntoken") Builder.new
      { status := 200, etag := none, cacheControl := none, body := "" }).result = none ∧
    (send_no_response (some "bad\ntoken") Builder.new
      { status := 200, etag := none, cacheControl := none, body := "" }).networkCalled = false :=
  ⟨rfl, rfl, rfl, rfl, rfl, rfl⟩

end Spot
